import Mathlib

/-!
Shallow embedding of `src/lib/performance.ts`: the module-level TTL cache
(`getCachedData`, `setCachedData`, `clearCache`), the `cachedFetch` wrapper,
and the `debounce` / `throttle` rate shapers.

Time is modelled in milliseconds as `Nat` (values of `Date.now()`).  The
source compares `now - cached.timestamp > cached.ttl` on JS numbers; for
non-negative `ttl` this comparison agrees with the `Nat` truncated
subtraction used here (a negative JS difference and a truncated-to-zero
difference are both `≤ ttl`).
-/

namespace Performance

/-- JavaScript runtime values as far as cache payloads are concerned.
Numbers are modelled as integers (the claims do not involve fractional or
NaN payloads); every array or object is represented by an opaque `obj` tag,
since compound values are always truthy and their structure never matters
to this module. -/
inductive JSValue where
  | null
  | bool (b : Bool)
  | num (n : Int)
  | str (s : String)
  | obj (tag : Nat)
  deriving DecidableEq, Repr

/-- Truthiness of a JS value, as tested by `if (v)`. -/
def JSValue.truthy : JSValue → Bool
  | .null => false
  | .bool b => b
  | .num n => n != 0
  | .str s => s != ""
  | .obj _ => true

/-- One entry of the module-level `apiCache` map:
`{ data: unknown; timestamp: number; ttl: number }`. -/
structure CacheEntry where
  data : JSValue
  timestamp : Nat
  ttl : Nat
  deriving DecidableEq, Repr

/-- The `apiCache` map `Map<string, CacheEntry>`, modelled as a function
from keys to optional entries. -/
def Cache : Type := String → Option CacheEntry

/-- The empty map (the state after `apiCache.clear()`). -/
def emptyCache : Cache := fun _ => none

/-- Embeds `getCachedData(key)`.  The returned pair is the function result
(`none` embeds the `return null` paths) together with the cache after the
call, because the expired branch executes `apiCache.delete(key)`. -/
def getCachedData (cache : Cache) (key : String) (now : Nat) :
    Option JSValue × Cache :=
  match cache key with
  | none => (none, cache)
  | some cached =>
    if now - cached.timestamp > cached.ttl then
      (none, fun k => if k = key then none else cache k)
    else
      (some cached.data, cache)

/-- Embeds `setCachedData(key, data, ttl)`: one unconditional
`apiCache.set(key, { data, timestamp: Date.now(), ttl })`, with `now`
standing for the `Date.now()` call. -/
def setCachedData (cache : Cache) (key : String) (data : JSValue) (ttl : Nat)
    (now : Nat) : Cache :=
  fun k => if k = key then some ⟨data, now, ttl⟩ else cache k

/-- Embeds `clearCache(key?)`.  The source guards with `if (key)`, a JS
truthiness test on `string | undefined`: the single-`delete` branch runs only
when `key` is present and a nonempty string, so both `clearCache()` and
`clearCache("")` take the `apiCache.clear()` branch. -/
def clearCache (cache : Cache) (key : Option String) : Cache :=
  match key with
  | some k =>
    if k = "" then fun _ => none
    else fun x => if x = k then none else cache x
  | none => fun _ => none

/-- An HTTP response as consumed by `cachedFetch`: its `ok` flag, its
`status`, and the value produced by `response.json()`. -/
structure HttpResponse where
  ok : Bool
  status : Nat
  body : JSValue

/-- Observable outcome of one `cachedFetch` call: the returned / thrown
value (`Except.error s` embeds `throw new Error` with status `s` in the
message), the cache afterwards, and how many times the network primitive
`fetch` ran. -/
structure FetchResult where
  result : Except Nat JSValue
  cache : Cache
  networkCalls : Nat

/-- The network path of `cachedFetch` (lines 77-94 of the source): one
`fetch`, then either `throw` on `!response.ok` (no cache write), or parse
the body, store it via `setCachedData`, and return it. -/
def fetchAndStore (cache : Cache) (key : String) (ttl : Nat) (now : Nat)
    (response : HttpResponse) : FetchResult :=
  if response.ok then
    { result := .ok response.body,
      cache := setCachedData cache key response.body ttl now,
      networkCalls := 1 }
  else
    { result := .error response.status, cache := cache, networkCalls := 1 }

/-- Embeds `cachedFetch(url, options, cacheOptions)`.  `ttlOpt` is the
optional `ttl` field of `cacheOptions` (`getD 60000` embeds the
destructuring default `ttl = 60000`); `now₁` is `Date.now()` inside the
initial `getCachedData`, `now₂` inside the later `setCachedData`;
`response` is what the network would answer if `fetch` runs.  The source
checks the cached value with `if (cached)` — a truthiness test — so only a
truthy cached payload short-circuits the network. -/
def cachedFetch (cache : Cache) (key : String) (ttlOpt : Option Nat)
    (now₁ now₂ : Nat) (response : HttpResponse) : FetchResult :=
  let ttl := ttlOpt.getD 60000
  let g := getCachedData cache key now₁
  match g.1 with
  | some v =>
    if v.truthy then
      { result := .ok v, cache := g.2, networkCalls := 0 }
    else
      fetchAndStore g.2 key ttl now₂ response
  | none => fetchAndStore g.2 key ttl now₂ response

/-- Embeds the closure of `debounce(func, wait)` over a finite trace of
calls to the wrapper.  `calls` lists `(time, args)` in strictly increasing
time order; each call runs `clearTimeout` on the pending timer and
schedules `func(args)` at `time + wait`; a pending timer fires only if due
strictly before the next call.  The result lists the `(fireTime, args)`
executions of `func`; the wrapper itself returns `void`, so no value is
propagated. -/
def debounceRun {α : Type} (wait : Nat) : List (Nat × α) → List (Nat × α)
  | [] => []
  | [(t, a)] => [(t + wait, a)]
  | (t, a) :: (t', b) :: rest =>
    if t + wait < t' then
      (t + wait, a) :: debounceRun wait ((t', b) :: rest)
    else
      debounceRun wait ((t', b) :: rest)

/-- Embeds the closure of `throttle(func, limit)`: `resetAt` is the time at
which the pending `setTimeout(() => inThrottle = false, limit)` fires
(`none` while `inThrottle` has never been set).  A call at `t` runs `func`
immediately iff `inThrottle` is false at `t`. -/
def throttleAux {α : Type} (limit : Nat) (resetAt : Option Nat) :
    List (Nat × α) → List (Nat × α)
  | [] => []
  | (t, a) :: rest =>
    match resetAt with
    | none => (t, a) :: throttleAux limit (some (t + limit)) rest
    | some r =>
      if r ≤ t then (t, a) :: throttleAux limit (some (t + limit)) rest
      else throttleAux limit (some r) rest

/-- Executions of `func` over a call trace of a fresh `throttle` wrapper. -/
def throttleRun {α : Type} (limit : Nat) (calls : List (Nat × α)) :
    List (Nat × α) :=
  throttleAux limit none calls

/-- A cache holding a single valid entry whose payload is the JS value
`false` — a perfectly legitimate JSON response body. -/
def falsyHitCache : Cache :=
  fun k => if k = "data" then some ⟨.bool false, 0, 1000⟩ else none

/-- A cache holding entries under the empty-string key and under `"other"`. -/
def twoKeyCache : Cache :=
  fun k =>
    if k = "" then some ⟨.num 1, 0, 1000⟩
    else if k = "other" then some ⟨.num 2, 0, 1000⟩
    else none

/-- C1 fails as stated: at time 500 the entry under `"data"` is a valid,
unexpired cache hit (`getCachedData` returns its payload `false`), yet
`cachedFetch` issues one network call and returns the network body instead
of the cached payload, because the source tests the hit with the truthiness
check `if (cached)` and `false` is falsy. -/
theorem cachedFetch_falsy_hit_cex :
    (getCachedData falsyHitCache "data" 500).1 = some (.bool false) ∧
    (cachedFetch falsyHitCache "data" none 500 500
        ⟨true, 200, .str "fresh"⟩).networkCalls = 1 ∧
    (cachedFetch falsyHitCache "data" none 500 500
        ⟨true, 200, .str "fresh"⟩).result ≠ .ok (.bool false) := by
  refine ⟨rfl, rfl, fun h => ?_⟩
  exact JSValue.noConfusion (Except.ok.inj h)

/-- C1 (amended): for every stored payload that is a valid (unexpired)
cache hit AND truthy, `cachedFetch` returns the cached payload and issues
zero calls to the network primitive. -/
theorem cachedFetch_truthy_hit (m : Cache) (key : String) (e : CacheEntry)
    (ttlOpt : Option Nat) (now₁ now₂ : Nat) (resp : HttpResponse)
    (hm : m key = some e) (hvalid : now₁ - e.timestamp ≤ e.ttl)
    (htruthy : e.data.truthy = true) :
    (cachedFetch m key ttlOpt now₁ now₂ resp).result = .ok e.data ∧
    (cachedFetch m key ttlOpt now₁ now₂ resp).networkCalls = 0 := by
  simp [cachedFetch, getCachedData, hm, Nat.not_lt.mpr hvalid, htruthy]

/-- Witness for `cachedFetch_truthy_hit` at a concrete input. -/
theorem cachedFetch_truthy_hit_witness :
    (cachedFetch (fun k => if k = "k" then some ⟨.str "v", 0, 100⟩ else none)
        "k" none 50 60 ⟨true, 200, .null⟩).result = .ok (.str "v") ∧
    (cachedFetch (fun k => if k = "k" then some ⟨.str "v", 0, 100⟩ else none)
        "k" none 50 60 ⟨true, 200, .null⟩).networkCalls = 0 :=
  cachedFetch_truthy_hit _ "k" ⟨.str "v", 0, 100⟩ none 50 60 ⟨true, 200, .null⟩
    rfl (by decide) rfl

/-- C2 fails as stated: with entries under `""` and `"other"`,
`clearCache("")` is supposed to remove at most the `""` entry, but the
source's `if (key)` truthiness guard sends the empty string to the
`apiCache.clear()` branch, so the `"other"` entry is gone afterwards. -/
theorem clearCache_empty_key_cex :
    twoKeyCache "other" = some ⟨.num 2, 0, 1000⟩ ∧
    clearCache twoKeyCache (some "") "other" = none := ⟨rfl, rfl⟩

/-- C2 (amended): for every NONEMPTY key, `clearCache(key)` removes at most
that single entry and every other key keeps its value; `clearCache()` with
no argument — and likewise `clearCache("")`, since the empty string fails
the truthiness guard — removes all entries, so a subsequent `getCachedData`
for any key returns absent. -/
theorem clearCache_spec (m : Cache) (key k' : String) (now : Nat)
    (hk : key ≠ "") (hne : k' ≠ key) :
    clearCache m (some key) key = none ∧
    clearCache m (some key) k' = m k' ∧
    clearCache m none k' = none ∧
    (getCachedData (clearCache m none) k' now).1 = none := by
  simp [clearCache, getCachedData, hk, hne]

/-- Witness for `clearCache_spec` at a concrete input. -/
theorem clearCache_spec_witness :
    clearCache twoKeyCache (some "other") "other" = none ∧
    clearCache twoKeyCache (some "other") "" = twoKeyCache "" ∧
    clearCache twoKeyCache none "" = none ∧
    (getCachedData (clearCache twoKeyCache none) "" 7).1 = none :=
  clearCache_spec twoKeyCache "other" "" 7 (by decide) (by decide)

/-- C3: setting a payload and reading it back at any time within `ttl`
milliseconds of the set returns the payload unchanged. -/
theorem set_get_roundTrip (m : Cache) (key : String) (payload : JSValue)
    (ttl t₀ t₁ : Nat) (_httl : 0 < ttl) (_hord : t₀ ≤ t₁)
    (hwithin : t₁ - t₀ ≤ ttl) :
    (getCachedData (setCachedData m key payload ttl t₀) key t₁).1
      = some payload := by
  simp [getCachedData, setCachedData, Nat.not_lt.mpr hwithin]

/-- Witness for `set_get_roundTrip` at a concrete input. -/
theorem set_get_roundTrip_witness :
    (getCachedData (setCachedData emptyCache "inv" (.obj 3) 60000 1000)
        "inv" 61000).1 = some (.obj 3) :=
  set_get_roundTrip emptyCache "inv" (.obj 3) 60000 1000 61000
    (by decide) (by decide) (by decide)

/-- C4: an entry is returned by `getCachedData` iff `now - insertedAt ≤ ttl`
(so it is still valid at exactly `now - insertedAt = ttl`); when
`now - insertedAt > ttl` the read returns absent and deletes the entry, and
in either case no other key is touched (eviction is lazy, on read of that
key only). -/
theorem getCachedData_validity (m : Cache) (key k' : String) (e : CacheEntry)
    (now : Nat) (hm : m key = some e) (hk' : k' ≠ key) :
    ((getCachedData m key now).1 = some e.data ↔ now - e.timestamp ≤ e.ttl) ∧
    (e.ttl < now - e.timestamp →
      (getCachedData m key now).1 = none ∧
      (getCachedData m key now).2 key = none) ∧
    (getCachedData m key now).2 k' = m k' := by
  by_cases h : now - e.timestamp ≤ e.ttl
  · simp [getCachedData, hm, Nat.not_lt.mpr h, h]
  · rw [Nat.not_le] at h
    simp [getCachedData, hm, h, Nat.not_le.mpr h, hk']

/-- Witness for `getCachedData_validity` at a concrete expired entry. -/
theorem getCachedData_validity_witness :
    ((getCachedData twoKeyCache "" 2000).1 = some (.num 1) ↔
      2000 - 0 ≤ 1000) ∧
    (1000 < 2000 - 0 →
      (getCachedData twoKeyCache "" 2000).1 = none ∧
      (getCachedData twoKeyCache "" 2000).2 "" = none) ∧
    (getCachedData twoKeyCache "" 2000).2 "other" = twoKeyCache "other" :=
  getCachedData_validity twoKeyCache "" "other" ⟨.num 1, 0, 1000⟩ 2000
    rfl (by decide)

/-- C5: on a cache miss whose network response fails (`ok = false`),
`cachedFetch` rejects with an error carrying the response status and the
cache is not mutated: it is the very map from before the call, so the key
remains absent. -/
theorem cachedFetch_failure (m : Cache) (key : String) (ttlOpt : Option Nat)
    (now₁ now₂ : Nat) (resp : HttpResponse)
    (hmiss : m key = none) (hfail : resp.ok = false) :
    (cachedFetch m key ttlOpt now₁ now₂ resp).result = .error resp.status ∧
    (cachedFetch m key ttlOpt now₁ now₂ resp).cache = m ∧
    (cachedFetch m key ttlOpt now₁ now₂ resp).cache key = none := by
  refine ⟨?_, ?_, ?_⟩ <;>
    simp [cachedFetch, getCachedData, fetchAndStore, hmiss, hfail]

/-- Witness for `cachedFetch_failure` at a concrete input (status 500). -/
theorem cachedFetch_failure_witness :
    (cachedFetch emptyCache "k" (some 5000) 10 20
        ⟨false, 500, .null⟩).result = .error 500 ∧
    (cachedFetch emptyCache "k" (some 5000) 10 20
        ⟨false, 500, .null⟩).cache = emptyCache ∧
    (cachedFetch emptyCache "k" (some 5000) 10 20
        ⟨false, 500, .null⟩).cache "k" = none :=
  cachedFetch_failure emptyCache "k" (some 5000) 10 20 ⟨false, 500, .null⟩
    rfl rfl

/-- C6: `setCachedData` unconditionally writes the entry for its key with
the current timestamp and given ttl — no precondition on the prior state of
that key — and leaves every other key unchanged. -/
theorem setCachedData_overwrites (m : Cache) (key k' : String)
    (payload : JSValue) (ttl now : Nat) (hne : k' ≠ key) :
    setCachedData m key payload ttl now key = some ⟨payload, now, ttl⟩ ∧
    setCachedData m key payload ttl now k' = m k' := by
  simp [setCachedData, hne]

/-- Witness for `setCachedData_overwrites`: the key `"other"` already holds
a still-valid entry and is overwritten regardless. -/
theorem setCachedData_overwrites_witness :
    setCachedData twoKeyCache "other" (.str "new") 9 4 "other"
      = some ⟨.str "new", 4, 9⟩ ∧
    setCachedData twoKeyCache "other" (.str "new") 9 4 "" = twoKeyCache "" :=
  setCachedData_overwrites twoKeyCache "other" "" (.str "new") 9 4
    (by decide)

/-- C7: a read of a valid entry returns its payload and leaves the whole
cache mapping unchanged — no TTL refresh, no sliding expiry, no effect on
any entry. -/
theorem getCachedData_valid_hit_frame (m : Cache) (key : String)
    (e : CacheEntry) (now : Nat) (hm : m key = some e)
    (hvalid : now - e.timestamp ≤ e.ttl) :
    (getCachedData m key now).1 = some e.data ∧
    (getCachedData m key now).2 = m := by
  simp [getCachedData, hm, Nat.not_lt.mpr hvalid]

/-- Witness for `getCachedData_valid_hit_frame` at a concrete input. -/
theorem getCachedData_valid_hit_frame_witness :
    (getCachedData twoKeyCache "other" 1000).1 = some (.num 2) ∧
    (getCachedData twoKeyCache "other" 1000).2 = twoKeyCache :=
  getCachedData_valid_hit_frame twoKeyCache "other" ⟨.num 2, 0, 1000⟩ 1000
    rfl (by decide)

/-- C8: with `waitMs = 200`, calls to the debounced wrapper at t = 0, 50,
100 produce exactly one execution of the wrapped action, at t = 300, with
the arguments of the third call; the first two are discarded. -/
theorem debounce_scenario :
    debounceRun 200 [(0, "first"), (50, "second"), (100, "third")]
      = [(300, "third")] := rfl

/-- C9: with `windowMs = 1000`, calls to the throttled wrapper at t = 0,
200, 400, 1100 produce exactly two executions, at t = 0 (leading edge) and
t = 1100; the calls at 200 and 400 are silently dropped. -/
theorem throttle_scenario :
    throttleRun 1000 [(0, "a"), (200, "b"), (400, "c"), (1100, "d")]
      = [(0, "a"), (1100, "d")] := rfl

/-- C10: when the cache options omit `ttl`, a successful fetch on a miss
stores the parsed payload with the default time-to-live of 60000 ms. -/
theorem cachedFetch_default_ttl (m : Cache) (key : String) (now₁ now₂ : Nat)
    (resp : HttpResponse) (hmiss : m key = none) (hok : resp.ok = true) :
    (cachedFetch m key none now₁ now₂ resp).cache key
      = some ⟨resp.body, now₂, 60000⟩ ∧
    (cachedFetch m key none now₁ now₂ resp).result = .ok resp.body := by
  refine ⟨?_, ?_⟩ <;>
    simp [cachedFetch, getCachedData, fetchAndStore, setCachedData,
      hmiss, hok]

/-- Witness for `cachedFetch_default_ttl` at a concrete input. -/
theorem cachedFetch_default_ttl_witness :
    (cachedFetch emptyCache "inv" none 10 25
        ⟨true, 200, .obj 1⟩).cache "inv" = some ⟨.obj 1, 25, 60000⟩ ∧
    (cachedFetch emptyCache "inv" none 10 25
        ⟨true, 200, .obj 1⟩).result = .ok (.obj 1) :=
  cachedFetch_default_ttl emptyCache "inv" 10 25 ⟨true, 200, .obj 1⟩ rfl rfl

end Performance
